import Mathlib

/-!
# Verification of the ode-ingest CSV cleaning and delta-merge engine

Shallow embedding of the core of `itk-dev-rpa/ode-ingest`
(`src/ode_ingest/csv_cleaner.py`, `src/ode_ingest/file_sorting.py`,
`src/ode_ingest/ode_ingest.py`) in Lean 4, together with theorems settling
the frozen claims about the repository.

Conventions used throughout:
* text cells are `Option String` (`none` models pandas `NA`/`NaN`),
* numbers parsed from text are modelled exactly as `ℚ` (the claims under
  scrutiny are about which string is parsed, not about IEEE rounding),
* calendar dates are modelled as a `DMY` record, encoded where convenient as
  the natural number `y * 10000 + m * 100 + d` (chronological order on dates
  coincides with `Nat` order on this encoding),
* Python exceptions are modelled with `Except Unit`.
-/

namespace OdeIngest

/-! ## Basic character/string helpers shared by several components -/

/-- Numeric value of a list of decimal digit characters (most significant first). -/
def digitsToNat (l : List Char) : Nat :=
  l.foldl (fun a c => a * 10 + (c.toNat - '0'.toNat)) 0

/-- Python `str.strip()` on the character list of a string: drop leading and
trailing whitespace. -/
def pyStrip (l : List Char) : List Char :=
  ((l.dropWhile Char.isWhitespace).reverse.dropWhile Char.isWhitespace).reverse

/-- The character substitution performed by `value_str.replace(',', '.')`. -/
def commaToDot (c : Char) : Char := if c = ',' then '.' else c

/-! ## Locale float conversion (`CSVCleaner._safe_float_conversion`, csv_cleaner.py 195-218)

`convert_danish_number` in the source strips the cell, rewrites Danish
separators, and calls Python `float()`; any parse failure returns `NaN`
(a missing value).  `pyFloat` models Python `float()` on decimal notation
(optional sign, digits with an optional single dot, optional exponent).
Underscore digit grouping and the `inf`/`nan` literals of Python `float()` are
not modelled; no input produced by the separator rewriting of a cell that the
claims quantify over uses them. -/

/-- Split an optional leading sign off a character list; `true` means negative. -/
def splitSign : List Char → Bool × List Char
  | '-' :: r => (true, r)
  | '+' :: r => (false, r)
  | l => (false, l)

/-- Parse the exponent part of a float literal (after the `e`/`E`). -/
def parseExpPart (l : List Char) : Option (Bool × Nat) :=
  let (n, r) := splitSign l
  let ds := r.takeWhile Char.isDigit
  let rest := r.dropWhile Char.isDigit
  if ds.isEmpty || !rest.isEmpty then none else some (n, digitsToNat ds)

/-- Apply a parsed exponent to a rational mantissa. -/
def applyExp (q : ℚ) (p : Bool × Nat) : ℚ :=
  if p.1 then q / (10 : ℚ) ^ p.2 else q * (10 : ℚ) ^ p.2

/-- Model of Python `float()` on a character list in decimal notation.
Returns `none` where `float()` raises `ValueError`. -/
def pyFloat (l : List Char) : Option ℚ :=
  let (neg, l1) := splitSign l
  let ds := l1.takeWhile Char.isDigit
  let l2 := l1.dropWhile Char.isDigit
  let mant : Option (ℚ × List Char) :=
    match l2 with
    | '.' :: l3 =>
      let fs := l3.takeWhile Char.isDigit
      let l4 := l3.dropWhile Char.isDigit
      if ds.isEmpty && fs.isEmpty then none
      else some ((digitsToNat ds : ℚ) + (digitsToNat fs : ℚ) / (10 : ℚ) ^ fs.length, l4)
    | _ =>
      if ds.isEmpty then none else some ((digitsToNat ds : ℚ), l2)
  match mant with
  | none => none
  | some (q, rest) =>
    let signed : Option ℚ → Option ℚ := Option.map (fun x => if neg then -x else x)
    match rest with
    | [] => signed (some q)
    | 'e' :: l5 => signed ((parseExpPart l5).map (applyExp q))
    | 'E' :: l5 => signed ((parseExpPart l5).map (applyExp q))
    | _ => none

/-- Embedding of `convert_danish_number` (csv_cleaner.py 199-215): the per-cell
body of `CSVCleaner._safe_float_conversion`.  `none` input models a cell for
which `pd.isna(value)` holds. -/
def convert_danish_number (value : Option String) : Option ℚ :=
  match value with
  | none => none
  | some s =>
    if s = "" then none
    else
      let l := pyStrip s.toList
      if l.contains '.' && l.contains ',' then
        pyFloat ((l.filter (fun c => c ≠ '.')).map commaToDot)
      else if l.contains ',' then
        pyFloat (l.map commaToDot)
      else
        pyFloat l

/-- The float-conversion contract as the spec words it (spec.md §4.1):
strip whitespace; both `.` and `,` present means `.` is grouping (removed) and
`,` is the decimal point; only `,` means `,` is the decimal point; neither
means parse as-is; parse failure is a missing value. -/
def specFloatConvert (value : Option String) : Option ℚ :=
  match value with
  | none => none
  | some s =>
    let l := pyStrip s.toList
    if l.contains '.' && l.contains ',' then
      pyFloat ((l.filter (fun c => c ≠ '.')).map commaToDot)
    else if l.contains ',' then
      pyFloat (l.map commaToDot)
    else
      pyFloat l

/-! ## Column classifier (`CSVCleaner._suggest_column_type`, csv_cleaner.py 245-274)

The classifier receives a sampled column (cells may be missing), drops the
missing cells, and tests the remaining text against two date-shaped regular
expressions with `Series.str.match` (Python `re.match`, i.e. a match anchored
at the start of the string, trailing characters ignored), then against an
all-digits test after stripping `.` and `,`. -/

/-- Consume exactly `n` decimal digits from the front of `l`, returning their
value and the remainder; `none` if fewer than `n` digits are available. -/
def takeDigits (l : List Char) (n : Nat) : Option (Nat × List Char) :=
  if ((l.take n).length == n && (l.take n).all Char.isDigit) then
    some (digitsToNat (l.take n), l.drop n)
  else none

/-- Consume one of the separator characters dash, slash or dot. -/
def sepNext : List Char → Option (List Char)
  | c :: r => if c = '-' || c = '/' || c = '.' then some r else none
  | [] => none

/-- Consume a literal `-`. -/
def dashNext : List Char → Option (List Char)
  | '-' :: r => some r
  | _ => none

/-- `re.match` of the first date pattern (one or two digits, a separator among
dash, slash and dot, one or two digits, a separator, two to four digits)
against `l`: some decomposition of a prefix of `l` fits the pattern
(regex backtracking succeeds exactly when such a decomposition exists;
trailing input after `\d{2}` is ignored because `{2,4}` needs only two
digits and `re.match` does not anchor the end). -/
def datePat1 (l : List Char) : Bool :=
  [1, 2].any fun a => [1, 2].any fun b =>
    (((((takeDigits l a).map Prod.snd).bind sepNext).bind
        (fun l2 => (takeDigits l2 b).map Prod.snd)).bind sepNext).bind
      (fun l4 => (takeDigits l4 2).map Prod.snd) |>.isSome

/-- `re.match` of the second date pattern `\d{4}-\d{1,2}-\d{1,2}` against `l`. -/
def datePat2 (l : List Char) : Bool :=
  [1, 2].any fun b =>
    (((((takeDigits l 4).map Prod.snd).bind dashNext).bind
        (fun l2 => (takeDigits l2 b).map Prod.snd)).bind dashNext).bind
      (fun l4 => (takeDigits l4 1).map Prod.snd) |>.isSome

/-- Python `str.isdigit()` on a character list: non-empty and all digits. -/
def pyIsDigit (l : List Char) : Bool := !l.isEmpty && l.all Char.isDigit

/-- `value.replace('[,.]', '', regex=True)`: remove every `,` and `.`. -/
def stripGroupChars (s : String) : List Char :=
  s.toList.filter (fun c => c ≠ ',' && c ≠ '.')

/-- Embedding of `_suggest_column_type` (csv_cleaner.py 245-274).  The input is
the sampled column; `none` cells are the NA values removed by `dropna()`. -/
def suggest_column_type (col : List (Option String)) : String :=
  let non_null := col.filterMap id
  if non_null.isEmpty then "text"
  else if non_null.any (fun s => datePat1 s.toList) then "date"
  else if non_null.any (fun s => datePat2 s.toList) then "date"
  else
    let has_comma := non_null.any (fun s => s.toList.contains ',')
    let is_numeric := non_null.all (fun s => pyIsDigit (stripGroupChars s))
    if is_numeric then (if has_comma then "float" else "integer") else "text"

/-- The classifier as the spec words it (spec.md §4.2, steps 1-4, first match
wins).  "Consists only of digits" is read as Python `str.isdigit`, i.e.
non-empty and all digits. -/
def specClassify (col : List (Option String)) : String :=
  let samples := col.filterMap id
  if samples.isEmpty then "text"
  else if samples.any (fun s => datePat1 s.toList || datePat2 s.toList) then "date"
  else if samples.all (fun s => pyIsDigit (stripGroupChars s)) then
    (if samples.any (fun s => s.toList.contains ',') then "float" else "integer")
  else "text"

/-! ## Date conversion (`CSVCleaner._convert_dates`, csv_cleaner.py 122-158)

`pd.to_datetime(series, format=fmt, errors='coerce')` parses each value under
a `strptime`-style format, producing `NaT` (missing) for each value that does
not parse — and, crucially, raising no exception.  The parser below models the
`strptime` field regexes: `%d` is `3[01]|[12]\d|0[1-9]|[1-9]`, `%m` is
`1[0-2]|0[1-9]|[1-9]`, `%Y` is four digits, `%y` is two digits (mapped through
the POSIX pivot, 00-68 → 2000-2068, 69-99 → 1969-1999), with regex-order
backtracking (two digits preferred over one), full consumption of the input
(`exact=True`, the pandas default) and calendar validation of the resulting
date.  `pandas.Timestamp` range bounds (years 1677-2262) are not modelled;
no claim depends on dates outside that window. -/

/-- A calendar date as parsed by the cleaning engine. -/
structure DMY where
  day : Nat
  month : Nat
  year : Nat
deriving DecidableEq, Repr, Inhabited

/-- Tokens of the `strptime` formats used by the repository. -/
inductive FTok
  | d | m | y4 | y2
  | lit (c : Char)
deriving DecidableEq, Repr

/-- The seven fixed formats of `CSVCleaner.date_formats` (csv_cleaner.py 37-45),
in declared priority order, with their token lists. -/
def date_formats : List (String × List FTok) :=
  [("%d-%m-%Y", [.d, .lit '-', .m, .lit '-', .y4]),
   ("%d/%m/%Y", [.d, .lit '/', .m, .lit '/', .y4]),
   ("%Y%m%d",   [.y4, .m, .d]),
   ("%Y-%m-%d", [.y4, .lit '-', .m, .lit '-', .d]),
   ("%d.%m.%Y", [.d, .lit '.', .m, .lit '.', .y4]),
   ("%d-%m-%y", [.d, .lit '-', .m, .lit '-', .y2]),
   ("%d/%m/%y", [.d, .lit '/', .m, .lit '/', .y2])]

/-- Run a token list against the input, `strptime`-style: fields are matched
greedily (two digits, then one) with backtracking, and the whole input must be
consumed. -/
def runToks : List FTok → List Char → DMY → Option DMY
  | [], l, acc => if l.isEmpty then some acc else none
  | .lit c :: ts, x :: r, acc => if x = c then runToks ts r acc else none
  | .lit _ :: _, [], _ => none
  | .d :: ts, l, acc =>
    (match takeDigits l 2 with
     | some (v, r) => if 1 ≤ v && v ≤ 31 then runToks ts r { acc with day := v } else none
     | none => none) <|>
    (match takeDigits l 1 with
     | some (v, r) => if 1 ≤ v then runToks ts r { acc with day := v } else none
     | none => none)
  | .m :: ts, l, acc =>
    (match takeDigits l 2 with
     | some (v, r) => if 1 ≤ v && v ≤ 12 then runToks ts r { acc with month := v } else none
     | none => none) <|>
    (match takeDigits l 1 with
     | some (v, r) => if 1 ≤ v then runToks ts r { acc with month := v } else none
     | none => none)
  | .y4 :: ts, l, acc =>
    (match takeDigits l 4 with
     | some (v, r) => runToks ts r { acc with year := v }
     | none => none)
  | .y2 :: ts, l, acc =>
    (match takeDigits l 2 with
     | some (v, r) => runToks ts r { acc with year := if v ≤ 68 then 2000 + v else 1900 + v }
     | none => none)

/-- Gregorian leap years. -/
def isLeap (y : Nat) : Bool := (y % 4 == 0 && y % 100 != 0) || y % 400 == 0

/-- Days in a month. -/
def daysInMonth (y m : Nat) : Nat :=
  if m = 2 then (if isLeap y then 29 else 28)
  else if m = 4 || m = 6 || m = 9 || m = 11 then 30
  else 31

/-- `datetime` construction succeeds: the calendar validity check applied
after the textual fields have matched. -/
def validDMY (x : DMY) : Bool :=
  1 ≤ x.year && 1 ≤ x.month && x.month ≤ 12 && 1 ≤ x.day && x.day ≤ daysInMonth x.year x.month

/-- Parse a string under a format token list, with calendar validation. -/
def parseWithToks (ts : List FTok) (s : String) : Option DMY :=
  (runToks ts s.toList default).bind (fun x => if validDMY x then some x else none)

/-- `pd.to_datetime(series, format=fmt, errors='coerce')` on a column of text
cells: per-value parsing, unparseable or missing values become `NaT` (`none`).
Total — `errors='coerce'` never raises. -/
def toDatetimeCoerce (ts : List FTok) (col : List (Option String)) : List (Option DMY) :=
  col.map (fun v => v.bind (parseWithToks ts))

/-- The `try: pd.to_datetime(...); except ...` step of the format loop
(csv_cleaner.py 135-141) as the source wraps it: an `Except` whose error case
the `except` clause would catch.  Because `errors='coerce'` coerces instead of
raising, the result is always `.ok`. -/
def toDatetimeTry (ts : List FTok) (col : List (Option String)) :
    Except Unit (List (Option DMY)) :=
  .ok (toDatetimeCoerce ts col)

/-- The format loop of `_convert_dates` (csv_cleaner.py 133-142): try each
format; on success record the format and `break`; on an exception `continue`
with the next format.  Returns `none` when the loop exhausts the list with
`converted` still false. -/
def tryFormatsLoop : List (String × List FTok) → List (Option String) →
    Option (String × List (Option DMY))
  | [], _ => none
  | (name, ts) :: rest, col =>
    match toDatetimeTry ts col with
    | .ok res => some (name, res)
    | .error _ => tryFormatsLoop rest col

/-- Zero-padded decimal rendering of a natural number, width `w`. -/
def padNat (w n : Nat) : List Char :=
  let s := Nat.toDigits 10 n
  List.replicate (w - s.length) '0' ++ s

/-- `Series.dt.strftime('%d%m%Y')`: the canonical `ddmmyyyy` output text. -/
def strfDdmmyyyy (x : DMY) : String :=
  String.mk (padNat 2 x.day ++ padNat 2 x.month ++ padNat 4 x.year)

/-- Modelled from the spec: the "locale-agnostic automatic parsing with
day-before-month preference" fallback (`pd.to_datetime(..., dayfirst=True)`,
csv_cleaner.py 147), whose internals live in pandas, outside this repository.
Modelled as the dayfirst dashed format followed by the ISO format.  It is
unreachable from `convert_dates_column` because the coerce-based try above
never raises, so `tryFormatsLoop` always commits to the head format. -/
def autoDayfirst (s : String) : Option DMY :=
  parseWithToks [.d, .lit '-', .m, .lit '-', .y4] s <|>
  parseWithToks [.y4, .lit '-', .m, .lit '-', .d] s

/-- Embedding of the per-column body of `_convert_dates`
(csv_cleaner.py 125-156): run the format loop, fall back to automatic parsing
when it reports no conversion, and on conversion re-emit every parsed value in
canonical `ddmmyyyy` text (parse failures stay missing).  Returns the
committed format name together with the converted column. -/
def convert_dates_column (col : List (Option String)) : String × List (Option String) :=
  match tryFormatsLoop date_formats col with
  | some (name, parsed) => (name, parsed.map (Option.map strfDdmmyyyy))
  | none => ("auto", (col.map (fun v => v.bind autoDayfirst)).map (Option.map strfDdmmyyyy))

/-! ## Date-range filtering (`CSVCleaner._apply_date_filter`, csv_cleaner.py 276-313)

A dataframe is a list of column names plus rows of named optional text cells.
`DateColumn.column` is `str | list[str]` in the source, modelled by
`FilterCol`.  The membership test `date_filter.column not in df.columns`
calls `pandas.Index.__contains__`, which hashes its key before the lookup;
a `list` key is unhashable, so for a list-valued `column` the test raises
`TypeError` (modelled as `.error`) before the `isinstance(..., list)` branch
at csv_cleaner.py 293 can run.  `pd.to_datetime(<scalar>, format='%Y%m%d')`
on a malformed start or end bound raises (also `.error`); per-cell reparsing
of the column uses `errors='coerce'` and is total. -/

/-- A dataframe row: named optional text cells. -/
abbrev DRow := List (String × Option String)

/-- A cleaned dataframe: column names and rows. -/
structure DFrame where
  columns : List String
  rows : List DRow
deriving DecidableEq, Repr

/-- The `str | list[str]` type of `DateColumn.column`. -/
inductive FilterCol
  | single (c : String)
  | multi (cs : List String)
deriving DecidableEq, Repr

/-- The `DateColumn` dataclass (csv_cleaner.py 8-14): filter column(s) and the
inclusive `yyyymmdd` bounds. -/
structure DateColumn where
  column : FilterCol
  start_date : String
  end_date : String
deriving DecidableEq, Repr

/-- Python truthiness of the `column` field, as tested by
`all([date_filter.column, ...])`: the empty string and the empty list are
falsy. -/
def colFalsy : FilterCol → Bool
  | .single c => c == ""
  | .multi cs => cs.isEmpty

/-- Chronological encoding of a date: `Nat` order on the encoding is date
order. -/
def encodeDMY (x : DMY) : Nat := x.year * 10000 + x.month * 100 + x.day

/-- Parse a `yyyymmdd` string (`pd.to_datetime(s, format='%Y%m%d')`),
returning the chronological encoding. -/
def parseYmdNat (s : String) : Option Nat :=
  (parseWithToks [.y4, .m, .d] s).map encodeDMY

/-- Value of the cell named `c` in a row (`none` when the column is absent
from the row or the cell is NA). -/
def getCell (r : DRow) (c : String) : Option String := (r.lookup c).join

/-- The row mask of the single-column branch (csv_cleaner.py 300-303):
the cell, reparsed as `yyyymmdd` with `errors='coerce'`, lies in the
inclusive range. -/
def dateMask (c : String) (sd ed : Nat) (r : DRow) : Bool :=
  match (getCell r c).bind parseYmdNat with
  | some d => sd ≤ d && d ≤ ed
  | none => false

/-- Embedding of `_apply_date_filter` (csv_cleaner.py 276-313). -/
def apply_date_filter (df : DFrame) (f : DateColumn) : Except Unit DFrame :=
  if colFalsy f.column || f.start_date == "" || f.end_date == "" then .ok df
  else
    match f.column with
    | .multi _ => .error ()
    | .single c =>
      if c ∈ df.columns then
        match parseYmdNat f.start_date, parseYmdNat f.end_date with
        | some sd, some ed =>
          let filtered := df.rows.filter (dateMask c sd ed)
          if filtered.isEmpty then .ok df else .ok { df with rows := filtered }
        | _, _ => .error ()
      else .ok df

/-! ## File sequencing (`file_sorting.py`)

`sort_files` sorts paths with Python's stable `sorted` under the key
`(extracted date, extracted sequence number, filename)`.  Python's `sorted`
is modelled by `List.insertionSort`, which is extensionally the same
function: both are the unique stable sort of a total preorder, and the
permutation, sortedness and stability (per-key filter preservation) theorems
proved below pin that characterisation down. -/

/-- `Path(filepath).name`: the part of the path after the last slash. -/
def baseName (p : String) : String :=
  String.mk ((p.toList.reverse.takeWhile (fun c => c ≠ '/')).reverse)

/-- Does `l` start with the shape of the regex `\d{4}-\d{2}-\d{2}`?  If so,
return those ten characters. -/
def ymdShape (l : List Char) : Option (List Char) :=
  match l with
  | a :: b :: c :: d :: s1 :: e :: f :: s2 :: g :: h :: _ =>
    if a.isDigit && b.isDigit && c.isDigit && d.isDigit && s1 = '-' &&
       e.isDigit && f.isDigit && s2 = '-' && g.isDigit && h.isDigit
    then some [a, b, c, d, s1, e, f, s2, g, h] else none
  | _ => none

/-- `re.search` for the date pattern: the first (leftmost) match wins. -/
def searchYmd : List Char → Option (List Char)
  | [] => none
  | c :: rest => ymdShape (c :: rest) <|> searchYmd rest

/-- Embedding of `_extract_date_from_filename` (file_sorting.py 7-27): search
for a `\d{4}-\d{2}-\d{2}` substring, then `strptime '%Y-%m-%d'` it; an invalid
calendar date yields `None` (the search is not resumed).  The result is the
chronological `Nat` encoding. -/
def extract_date_from_filename (name : String) : Option Nat :=
  (searchYmd name.toList).bind fun t =>
    (parseWithToks [.y4, .lit '-', .m, .lit '-', .d] (String.mk t)).map encodeDMY

/-- Does `l` start with the shape of the regex `_(\d{3})_`?  If so, return the
three-digit value. -/
def seqShape : List Char → Option Nat
  | '_' :: a :: b :: c :: '_' :: _ =>
    if a.isDigit && b.isDigit && c.isDigit then some (digitsToNat [a, b, c]) else none
  | _ => none

/-- `re.search` scan for the sequence pattern: leftmost match wins. -/
def searchSeq : List Char → Option Nat
  | [] => none
  | c :: rest => seqShape (c :: rest) <|> searchSeq rest

/-- Embedding of `_extract_sequence_number` (file_sorting.py 30-46): first
`_(\d{3})_` match, defaulting to `0`. -/
def extract_sequence_number (name : String) : Nat :=
  (searchSeq name.toList).getD 0

/-- The sentinel date `datetime(1900, 1, 1)` used when no date is found
(file_sorting.py 69-70), encoded. -/
def sentinelDate : Nat := 19000101

/-- Embedding of `get_file_sort_key` (file_sorting.py 49-72): the tuple
`(date or sentinel, sequence number, filename)`.  The filename component is
kept as its character list; Python string comparison is code-point
lexicographic, which is the `List Char` lexicographic order used below. -/
def get_file_sort_key (p : String) : Nat × Nat × List Char :=
  let name := baseName p
  ((extract_date_from_filename name).getD sentinelDate,
   extract_sequence_number name,
   name.toList)

/-- Lexicographic less-or-equal on character lists (Python `str` comparison). -/
def listCharLE : List Char → List Char → Bool
  | [], _ => true
  | _ :: _, [] => false
  | a :: as, b :: bs => if a < b then true else if a = b then listCharLE as bs else false

/-- Less-or-equal on sort keys: lexicographic on the tuple, exactly Python's
tuple comparison. -/
def keyLE (x y : Nat × Nat × List Char) : Bool :=
  if x.1 < y.1 then true
  else if x.1 = y.1 then
    if x.2.1 < y.2.1 then true
    else if x.2.1 = y.2.1 then listCharLE x.2.2 y.2.2
    else false
  else false

/-- The total preorder on file paths induced by `get_file_sort_key`. -/
def fileLE (a b : String) : Prop := keyLE (get_file_sort_key a) (get_file_sort_key b) = true

instance : DecidableRel fileLE := fun a b => by
  unfold fileLE
  infer_instance

/-- Embedding of `sort_files` (file_sorting.py 75-85): Python's stable
`sorted(file_paths, key=get_file_sort_key)`, modelled as the stable insertion
sort under `fileLE`. -/
def sort_files (file_paths : List String) : List String :=
  List.insertionSort fileLE file_paths

/-! ## Delta-merge engine (`ode_ingest.py`)

The claims under scrutiny concern keyed tables, so the embedding models the
keyed branch of `update_table_from_dataframe` (ode_ingest.py 100-158) and of
`merge_table_from_dataframe` (ode_ingest.py 167-255); the no-key branch of
both is a plain append (`insert_data`).

A table row is a business-key tuple plus the non-key data, abstracted as
types `κ` and `δ`; `MRow.key` is `Option κ` because an SQL row can carry
`NULL` key columns (an `INSERT` statement that does not list the key columns
leaves them `NULL`).  Keyed tables are created by `create_table`
(ode_ingest.py 277-279) with a composite `PrimaryKeyConstraint` over the key
columns, so the store rejects an insert whose key is `NULL` or duplicates an
existing key; `insert_data` (ode_ingest.py 39-55) runs inside
`engine.begin()`, a transaction of its own that commits on success and rolls
back on error.

The row-by-row strategy buffers its `UPDATE` statements in a `Session`
transaction (committed only by `session.commit()`, discarded by
`session.rollback()`); after the loop it builds the queued new rows into a
fresh dataframe, calls `set_index(key_columns)` on it — a `KeyError` when the
frame is empty, because an empty frame has no columns — and hands it to
`insert_data`, which serialises it with `DataFrame.to_dict('records')`.
The `'records'` orientation does not include the index, so the queued rows
reach the `INSERT` without their key columns (`key := none` below).

`env : Nat → Bool` injects environment failures: `env n = true` makes the
`n`-th database call of the session (each per-row `UPDATE`, then the insert
transaction, then `session.commit()`) raise.  The function returns the
propagated Python result together with the committed table state after the
call. -/

/-- A target-table row: optional business key and non-key data. -/
structure MRow (κ δ : Type) where
  key : Option κ
  data : δ
deriving DecidableEq, Repr

/-- The primary-key admissibility check the store applies to an `INSERT` batch
against table `t`: every inserted key present (`NOT NULL`) and no duplicate
key among `t` and the batch. -/
def pkInsertOk {κ δ : Type} [DecidableEq κ] (t rows : List (MRow κ δ)) : Bool :=
  rows.all (fun r => r.key.isSome) && decide (((t ++ rows).map MRow.key).Nodup)

/-- Embedding of `insert_data` (ode_ingest.py 39-55) on a keyed table: a
single transaction appending the batch, rejected wholesale when the
primary-key constraint fails. -/
def insert_data {κ δ : Type} [DecidableEq κ] (t rows : List (MRow κ δ)) :
    Except Unit (List (MRow κ δ)) :=
  if pkInsertOk t rows then .ok (t ++ rows) else .error ()

/-- The effect of the `MERGE` statement (ode_ingest.py 204-214) on the target
table: each target row matched by a source key takes that source row's data;
source rows matching no target row are inserted. -/
def mergeApply {κ δ : Type} [DecidableEq κ] (t : List (MRow κ δ)) (src : List (κ × δ)) :
    List (MRow κ δ) :=
  t.map (fun r =>
    match src.find? (fun s => r.key == some s.1) with
    | some s => { r with data := s.2 }
    | none => r)
  ++ (src.filter (fun s => !(t.any (fun r => r.key == some s.1)))).map
      (fun s => { key := some s.1, data := s.2 })

/-- The error conditions under which SQL Server rejects the `MERGE`: a target
row matched by more than one source row, or a primary-key violation among the
inserted rows. -/
def mergeRaises {κ δ : Type} [DecidableEq κ] (t : List (MRow κ δ)) (src : List (κ × δ)) :
    Bool :=
  t.any (fun r => decide (2 ≤ src.countP (fun s => r.key == some s.1))) ||
  !(decide (((mergeApply t src).map MRow.key).Nodup))

/-- Embedding of the keyed branch of `merge_table_from_dataframe`
(ode_ingest.py 167-239): stage the dataframe and run one set-based `MERGE`,
committing on success.  Temp-table staging is modelled as a faithful transfer
of the dataframe into the `MERGE` source; driver-level temp-table visibility
is outside the embedding. -/
def merge_table_from_dataframe {κ δ : Type} [DecidableEq κ] (t : List (MRow κ δ))
    (src : List (κ × δ)) : Except Unit (List (MRow κ δ)) :=
  if mergeRaises t src then .error () else .ok (mergeApply t src)

/-- Committed table state after `merge_table_from_dataframe`: the merged
state on success, unchanged on failure (the connection context closes without
`conn.commit()`). -/
def mergeCommitted {κ δ : Type} [DecidableEq κ] (t : List (MRow κ δ)) (src : List (κ × δ)) :
    List (MRow κ δ) :=
  match merge_table_from_dataframe t src with
  | .ok t2 => t2
  | .error _ => t

/-- The per-row loop of `update_table_from_dataframe` (ode_ingest.py 110-142)
inside the session transaction: for each incoming row, an `UPDATE ... WHERE
key = ...`; `rowcount = 0` queues the row for insertion, otherwise the
session's view of the table is updated in place.  Returns the session view,
the queued rows and the number of database calls made; `.error` models an
environment failure injected at a call. -/
def updLoop {κ δ : Type} [DecidableEq κ] (env : Nat → Bool) :
    List (κ × δ) → List (MRow κ δ) → List (κ × δ) → Nat →
    Except Unit (List (MRow κ δ) × List (κ × δ) × Nat)
  | [], sess, news, n => .ok (sess, news, n)
  | (k, d) :: rest, sess, news, n =>
    if env n then .error ()
    else if sess.countP (fun r => r.key == some k) = 0 then
      updLoop env rest sess (news ++ [(k, d)]) (n + 1)
    else
      updLoop env rest
        (sess.map (fun r => if r.key == some k then { r with data := d } else r))
        news (n + 1)

/-- Embedding of the keyed branch of `update_table_from_dataframe`
(ode_ingest.py 100-158).  Returns `(result, committed table)`:
* duplicate incoming keys make `df.to_dict('index')` raise `ValueError`;
* an error anywhere in the `try` block triggers `session.rollback()` (the
  buffered updates are discarded) and re-raises, leaving the committed state
  as it was except for whatever `insert_data` already committed in its own
  `engine.begin()` transaction;
* with no queued rows, `new_records_df.set_index(key_columns)` raises
  `KeyError` on the empty, columnless frame (ode_ingest.py 146-148);
* with queued rows, `to_dict('records')` strips the index, so the batch
  reaches `insert_data` with `key := none`;
* only after a successful insert does `session.commit()` publish the buffered
  updates. -/
def update_table_from_dataframe {κ δ : Type} [DecidableEq κ] (t : List (MRow κ δ))
    (src : List (κ × δ)) (env : Nat → Bool) :
    Except Unit (List (MRow κ δ)) × List (MRow κ δ) :=
  if !(decide ((src.map Prod.fst).Nodup)) then (.error (), t)
  else
    match updLoop env src t [] 0 with
    | .error _ => (.error (), t)
    | .ok (sess, news, n) =>
      if news.isEmpty then (.error (), t)
      else if env n then (.error (), t)
      else
        match insert_data t (news.map (fun s => ({ key := none, data := s.2 } : MRow κ δ))) with
        | .error _ => (.error (), t)
        | .ok t2 =>
          if env (n + 1) then (.error (), t2)
          else (.ok (sess ++ news.map (fun s => ({ key := none, data := s.2 } : MRow κ δ))),
                sess ++ news.map (fun s => ({ key := none, data := s.2 } : MRow κ δ)))

/-! ## Missing-file behaviour (`create_dataframe_from_file`, ode_ingest.py 58-90)

Only the head of the function decides the claim: `Path(file_path).exists()`
false returns `None` before any file access.  The filesystem is a finite map
from paths to raw contents, and everything after the existence check
(`analyze_csv`, `read_csv_with_types`, the column projection) is abstracted
as `pipeline`, which may itself fail (for example when every encoding fails);
the theorem below holds for every such pipeline. -/

/-- Embedding of `create_dataframe_from_file` (ode_ingest.py 58-90). -/
def create_dataframe_from_file {α β : Type} (fs : List (String × α))
    (pipeline : α → String → Option DateColumn → Except Unit β)
    (file_path table_name : String) (date_filter : Option DateColumn) :
    Except Unit (Option β) :=
  match fs.lookup file_path with
  | none => .ok none
  | some content => (pipeline content table_name date_filter).map some

/-! ## Helper lemmas -/

theorem listCharLE_refl (l : List Char) : listCharLE l l = true := by
  induction l with
  | nil => rfl
  | cons a as ih => simp [listCharLE, ih]

theorem keyLE_refl (x : Nat × Nat × List Char) : keyLE x x = true := by
  unfold keyLE
  simp [listCharLE_refl]

theorem listCharLE_total (a : List Char) : ∀ b, listCharLE a b = true ∨ listCharLE b a = true := by
  induction a with
  | nil => intro b; left; rfl
  | cons x xs ih =>
    intro b
    cases b with
    | nil => right; rfl
    | cons y ys =>
      rcases lt_trichotomy x y with h | h | h
      · left; simp [listCharLE, h]
      · subst h
        rcases ih ys with h2 | h2
        · left; simp [listCharLE, h2]
        · right; simp [listCharLE, h2]
      · right; simp [listCharLE, h]

theorem listCharLE_trans (a : List Char) :
    ∀ b c, listCharLE a b = true → listCharLE b c = true → listCharLE a c = true := by
  induction a with
  | nil => intro b c _ _; rfl
  | cons x xs ih =>
    intro b c hab hbc
    cases b with
    | nil => simp [listCharLE] at hab
    | cons y ys =>
      cases c with
      | nil => simp [listCharLE] at hbc
      | cons z zs =>
        simp only [listCharLE] at hab hbc ⊢
        by_cases hxy : x < y
        · by_cases hyz : y < z
          · simp [lt_trans hxy hyz]
          · by_cases hyz2 : y = z
            · subst hyz2; simp [hxy]
            · simp [hyz, hyz2] at hbc
        · by_cases hxy2 : x = y
          · subst hxy2
            simp [hxy] at hab
            by_cases hxz : x < z
            · simp [hxz]
            · by_cases hxz2 : x = z
              · subst hxz2
                simp [hxz] at hbc
                simp [hxz, ih ys zs hab hbc]
              · simp [hxz, hxz2] at hbc
          · simp [hxy, hxy2] at hab

theorem keyLE_total (x y : Nat × Nat × List Char) : keyLE x y = true ∨ keyLE y x = true := by
  unfold keyLE
  rcases lt_trichotomy x.1 y.1 with h | h | h
  · left; simp [h]
  · rcases lt_trichotomy x.2.1 y.2.1 with h2 | h2 | h2
    · left; simp [h, h2]
    · rcases listCharLE_total x.2.2 y.2.2 with h3 | h3
      · left; simp [h, h2, h3]
      · right; simp [h.symm, h2.symm, h3]
    · right; simp [h.symm, h2]
  · right; simp [h]

theorem keyLE_trans (x y z : Nat × Nat × List Char) :
    keyLE x y = true → keyLE y z = true → keyLE x z = true := by
  intro hxy hyz
  unfold keyLE at hxy hyz ⊢
  by_cases h1 : x.1 < y.1
  · by_cases h2 : y.1 < z.1
    · simp [lt_trans h1 h2]
    · by_cases h2e : y.1 = z.1
      · simp [h2e ▸ h1]
      · simp [h2, h2e] at hyz
  · by_cases h1e : x.1 = y.1
    · simp only [if_neg h1, if_pos h1e] at hxy
      by_cases h2 : y.1 < z.1
      · simp [h1e ▸ h2]
      · by_cases h2e : y.1 = z.1
        case neg => simp [h2, h2e] at hyz
        · simp only [if_neg h2, if_pos h2e] at hyz
          have he : x.1 = z.1 := h1e.trans h2e
          have hnlt : ¬ x.1 < z.1 := by rw [he]; exact lt_irrefl _
          simp only [if_neg hnlt, if_pos he]
          by_cases g1 : x.2.1 < y.2.1
          · by_cases g2 : y.2.1 < z.2.1
            · simp [lt_trans g1 g2]
            · by_cases g2e : y.2.1 = z.2.1
              · simp [g2e ▸ g1]
              · simp [g2, g2e] at hyz
          · by_cases g1e : x.2.1 = y.2.1
            · simp only [if_neg g1, if_pos g1e] at hxy
              by_cases g2 : y.2.1 < z.2.1
              · simp [g1e ▸ g2]
              · by_cases g2e : y.2.1 = z.2.1
                · simp only [if_neg g2, if_pos g2e] at hyz
                  have ge : x.2.1 = z.2.1 := g1e.trans g2e
                  have gnlt : ¬ x.2.1 < z.2.1 := by rw [ge]; exact lt_irrefl _
                  simp only [if_neg gnlt, if_pos ge]
                  exact listCharLE_trans _ _ _ hxy hyz
                · simp [g2, g2e] at hyz
            · simp [g1, g1e] at hxy
    · simp [h1, h1e] at hxy

instance : IsTotal String fileLE :=
  ⟨fun a b => keyLE_total (get_file_sort_key a) (get_file_sort_key b)⟩

instance : IsTrans String fileLE :=
  ⟨fun _ _ _ hab hbc => keyLE_trans _ _ _ hab hbc⟩

theorem filter_key_orderedInsert (K : Nat × Nat × List Char) (x : String) (l : List String) :
    (List.orderedInsert fileLE x l).filter (fun f => decide (get_file_sort_key f = K))
      = if get_file_sort_key x = K
        then x :: l.filter (fun f => decide (get_file_sort_key f = K))
        else l.filter (fun f => decide (get_file_sort_key f = K)) := by
  induction l with
  | nil =>
    by_cases hx : get_file_sort_key x = K <;> simp [List.orderedInsert, hx]
  | cons b bs ih =>
    by_cases hr : fileLE x b
    · simp only [List.orderedInsert, if_pos hr]
      by_cases hx : get_file_sort_key x = K <;> by_cases hb : get_file_sort_key b = K <;>
        simp [List.filter_cons, hx, hb]
    · simp only [List.orderedInsert, if_neg hr]
      by_cases hx : get_file_sort_key x = K
      · have hb : ¬ get_file_sort_key b = K := by
          intro hbe
          exact hr (show fileLE x b by
            unfold fileLE; rw [hx, hbe]; exact keyLE_refl K)
        simp [List.filter_cons, hb, hx, ih]
      · by_cases hb : get_file_sort_key b = K <;>
          simp [List.filter_cons, hb, hx, ih]

theorem insertionSort_filter_key (K : Nat × Nat × List Char) (l : List String) :
    (List.insertionSort fileLE l).filter (fun f => decide (get_file_sort_key f = K))
      = l.filter (fun f => decide (get_file_sort_key f = K)) := by
  induction l with
  | nil => rfl
  | cons a l ih =>
    simp only [List.insertionSort]
    rw [filter_key_orderedInsert]
    by_cases hx : get_file_sort_key a = K <;> simp [List.filter_cons, hx, ih]

theorem insert_keyless_fails {κ δ : Type} [DecidableEq κ] (t : List (MRow κ δ))
    (news : List (κ × δ)) (h : news ≠ []) :
    insert_data t (news.map (fun s => ({ key := none, data := s.2 } : MRow κ δ)))
      = .error () := by
  cases news with
  | nil => exact absurd rfl h
  | cons a l =>
    unfold insert_data pkInsertOk
    simp

theorem update_table_always_error {κ δ : Type} [DecidableEq κ] (t : List (MRow κ δ))
    (src : List (κ × δ)) (env : Nat → Bool) :
    update_table_from_dataframe t src env = (.error (), t) := by
  unfold update_table_from_dataframe
  split
  · rfl
  · rcases hL : updLoop env src t [] 0 with e | ⟨sess, news, n⟩ <;> simp only [hL]
    by_cases hne : news.isEmpty = true
    · rw [if_pos hne]
    · rw [if_neg hne]
      have hnil : news ≠ [] := by
        intro hn
        rw [hn] at hne
        exact hne rfl
      by_cases hev : env n = true
      · rw [if_pos hev]
      · rw [if_neg hev, insert_keyless_fails t news hnil]

theorem list_any_or {α : Type} (l : List α) (p q : α → Bool) :
    (l.any fun x => p x || q x) = (l.any p || l.any q) := by
  induction l with
  | nil => rfl
  | cons a l ih =>
    simp only [List.any_cons, ih, Bool.or_assoc]
    cases p a <;> cases q a <;> cases l.any p <;> cases l.any q <;> rfl

/-! ## Claim theorems -/

/-- C5: float conversion strips whitespace first; with both `.` and `,`
present it removes every `.` and turns `,` into the decimal point (so
`"1.234,56"` converts to `1234.56`); with only `,` that becomes the decimal
point (`"12,5"` to `12.5`); with neither the text parses as-is; and any parse
failure yields a missing value, never an exception (the embedding is a total
function into `Option ℚ`). -/
theorem safe_float_conversion_matches_spec :
    (∀ v, convert_danish_number v = specFloatConvert v)
    ∧ convert_danish_number (some "1.234,56") = some ((30864 : ℚ) / 25)
    ∧ convert_danish_number (some "12,5") = some ((25 : ℚ) / 2)
    ∧ convert_danish_number (some "125") = some (125 : ℚ)
    ∧ convert_danish_number (some "abc") = none := by
  refine ⟨?_, ?_, ?_, ?_, by decide⟩
  · intro v
    match v with
    | none => rfl
    | some s =>
      by_cases h : s = ""
      · subst h; decide
      · simp only [convert_danish_number, specFloatConvert, if_neg h]
  · have h : convert_danish_number (some "1.234,56")
        = some (((1234 : ℕ) : ℚ) + ((56 : ℕ) : ℚ) / (10 : ℚ) ^ (2 : ℕ)) := rfl
    rw [h]; norm_num
  · have h : convert_danish_number (some "12,5")
        = some (((12 : ℕ) : ℚ) + ((5 : ℕ) : ℚ) / (10 : ℚ) ^ (1 : ℕ)) := rfl
    rw [h]; norm_num
  · have h : convert_danish_number (some "125") = some (((125 : ℕ) : ℚ)) := rfl
    rw [h]; norm_num

/-- C8: the classifier is first-match-wins — `text` with no non-null samples;
`date` when any sample matches either date-shaped pattern; otherwise
`integer`/`float` by the all-digits-after-stripping test (float when any
original sample contained a comma); `text` in all remaining cases — with the
four end-to-end examples of the spec. -/
theorem suggest_column_type_matches_spec :
    (∀ col, suggest_column_type col = specClassify col)
    ∧ suggest_column_type [some "01-12-2024", some "15-06-2023", none] = "date"
    ∧ suggest_column_type [some "1.234", some "56"] = "integer"
    ∧ suggest_column_type [some "1,5", some "2,3"] = "float"
    ∧ suggest_column_type [some "abc", some "def"] = "text" := by
  refine ⟨?_, by decide, by decide, by decide, by decide⟩
  intro col
  simp only [suggest_column_type, specClassify, list_any_or]
  cases h1 : (col.filterMap id).any (fun s => datePat1 s.toList) <;>
    cases h2 : (col.filterMap id).any (fun s => datePat2 s.toList) <;>
      simp [h1, h2]

/-- C2: the conversion loop of `_convert_dates` uses
`pd.to_datetime(..., errors='coerce')`, which never raises, so the column is
always committed to the first declared format `%d-%m-%Y` — even when that
format parses zero values and a later declared format (here the fourth,
`%Y-%m-%d`) parses the value.  The value `"2024-12-01"` is therefore coerced
to missing instead of surviving under `%Y-%m-%d`, contradicting the claimed
"first format under which at least one value parses" rule. -/
theorem convert_dates_commits_first_format_always :
    convert_dates_column [some "2024-12-01"] = ("%d-%m-%Y", [none])
    ∧ parseWithToks [.y4, .lit '-', .m, .lit '-', .d] "2024-12-01" =
        some { day := 1, month := 12, year := 2024 }
    ∧ toDatetimeCoerce [.d, .lit '-', .m, .lit '-', .y4] [some "2024-12-01"] = [none]
    ∧ date_formats.map Prod.fst =
        ["%d-%m-%Y", "%d/%m/%Y", "%Y%m%d", "%Y-%m-%d", "%d.%m.%Y", "%d-%m-%y", "%d/%m/%y"] :=
  ⟨rfl, rfl, rfl, rfl⟩

/-- C10: `create_dataframe_from_file` on a path absent from the filesystem
returns `None` (`.ok none`) — no exception and no record set — for every
downstream pipeline, table name and optional date filter. -/
theorem create_dataframe_missing_file_returns_none {α β : Type}
    (fs : List (String × α))
    (pipeline : α → String → Option DateColumn → Except Unit β)
    (file_path table_name : String) (date_filter : Option DateColumn)
    (h : fs.lookup file_path = none) :
    create_dataframe_from_file fs pipeline file_path table_name date_filter = .ok none := by
  unfold create_dataframe_from_file
  rw [h]

/-- Witness for C10 at a concrete missing path. -/
theorem create_dataframe_missing_file_returns_none_witness :
    create_dataframe_from_file ([] : List (String × Unit))
      (fun _ _ _ => (.ok () : Except Unit Unit)) "missing.csv" "Bilag-master" none
      = .ok none :=
  create_dataframe_missing_file_returns_none _ _ _ _ _ rfl

/-- C6 counterexample: a file whose extracted date is exactly the sentinel
`1900-01-01` carries the same primary key component as an undated file, so the
tie falls through to the filename and the *dated* file sorts before the
undated one — refuting "files lacking a parseable date sort before all dated
files". -/
theorem sort_files_sentinel_dated_before_undated :
    sort_files ["undated.csv", "1900-01-01_file.csv"]
      = ["1900-01-01_file.csv", "undated.csv"]
    ∧ extract_date_from_filename (baseName "undated.csv") = none
    ∧ extract_date_from_filename (baseName "1900-01-01_file.csv") = some sentinelDate :=
  ⟨rfl, rfl, rfl⟩

/-- C6 (amended): `sort_files` is the pure stable sort of its input by the key
(extracted export date with sentinel default `1900-01-01`, then the
underscore-wrapped three-digit sequence number with default `0`, then the
filename): the output is a permutation of the input, sorted under `fileLE`,
and stable (the subsequence of files having any fixed key is preserved).
Undated files sort strictly before every file whose extracted date is *later
than* the sentinel (but not necessarily before files dated exactly
`1900-01-01`, where the tie is broken by sequence number and filename).  The
spec's four-file example sorts to the stated order. -/
theorem sort_files_is_stable_sort_by_key :
    (∀ l, (sort_files l).Perm l)
    ∧ (∀ l, (sort_files l).Sorted fileLE)
    ∧ (∀ l K, (sort_files l).filter (fun f => decide (get_file_sort_key f = K))
        = l.filter (fun f => decide (get_file_sort_key f = K)))
    ∧ (∀ f g d, extract_date_from_filename (baseName f) = none →
        extract_date_from_filename (baseName g) = some d → sentinelDate < d →
        fileLE f g ∧ ¬ fileLE g f)
    ∧ sort_files ["0751_ODE_2025-06-17_002_01-Bilag-master_Delta.csv",
                  "0751_ODE_2025-06-17_001_01-Bilag-master_Delta.csv",
                  "0751_ODE_2025-01-01_005_01-Bilag-master_Delta.csv",
                  "undated_file"]
      = ["undated_file",
         "0751_ODE_2025-01-01_005_01-Bilag-master_Delta.csv",
         "0751_ODE_2025-06-17_001_01-Bilag-master_Delta.csv",
         "0751_ODE_2025-06-17_002_01-Bilag-master_Delta.csv"] := by
  refine ⟨fun l => List.perm_insertionSort fileLE l,
          fun l => List.sorted_insertionSort fileLE l,
          fun l K => insertionSort_filter_key K l,
          ?_, rfl⟩
  intro f g d hf hg hd
  have h1 : (get_file_sort_key f).1 = sentinelDate := by
    simp [get_file_sort_key, hf]
  have h2 : (get_file_sort_key g).1 = d := by
    simp [get_file_sort_key, hg]
  constructor
  · unfold fileLE keyLE
    rw [h1, h2, if_pos hd]
  · unfold fileLE keyLE
    rw [h1, h2]
    have hnd : ¬ d < sentinelDate := Nat.lt_asymm hd
    have hne : ¬ d = sentinelDate := Nat.ne_of_gt hd
    rw [if_neg hnd, if_neg hne]
    simp

/-- Witness for the amended C6 at concrete files: an undated file sorts
strictly before a file dated after the sentinel. -/
theorem sort_files_is_stable_sort_by_key_witness :
    fileLE "nodate.csv" "x_2024-05-05_y.csv"
    ∧ ¬ fileLE "x_2024-05-05_y.csv" "nodate.csv" :=
  sort_files_is_stable_sort_by_key.2.2.2.1 "nodate.csv" "x_2024-05-05_y.csv" 20240505
    rfl rfl (by decide)

/-- C7 counterexample: a date filter whose `column` field is a list naming a
non-existent column is "inapplicable", yet `_apply_date_filter` raises
`TypeError` (pandas `Index.__contains__` hashes its key, and a list is
unhashable) instead of passing all rows through — refuting "never an error"
for the claim's quantification over every date-range filter. -/
theorem date_filter_multi_inapplicable_errors :
    apply_date_filter ⟨["a"], [[("a", some "x")]]⟩
        ⟨.multi ["zzz"], "20240101", "20241231"⟩ = .error ()
    ∧ "zzz" ∉ (DFrame.mk ["a"] [[("a", some "x")]]).columns :=
  ⟨rfl, by decide⟩

/-- C7 (amended): for a *single-column* (string) date filter, inapplicability
is a silent pass-through: when the named column is absent from the record
set, or when the computed row mask matches zero rows, the filter returns the
original record set unchanged (same rows, same row count) and no error.
List-valued filter columns instead raise `TypeError` at the column-existence
test. -/
theorem date_filter_single_inapplicable_passthrough (df : DFrame) (c s e : String) :
    (c ∉ df.columns → apply_date_filter df ⟨.single c, s, e⟩ = .ok df)
    ∧ (∀ sd ed, parseYmdNat s = some sd → parseYmdNat e = some ed →
        df.rows.filter (dateMask c sd ed) = [] →
        apply_date_filter df ⟨.single c, s, e⟩ = .ok df) := by
  constructor
  · intro hc
    unfold apply_date_filter
    by_cases hg : (colFalsy (FilterCol.single c) || (s == "") || (e == "")) = true
    · rw [if_pos hg]
    · rw [if_neg hg]
      simp only [if_neg hc]
  · intro sd ed hs he hf
    unfold apply_date_filter
    by_cases hg : (colFalsy (FilterCol.single c) || (s == "") || (e == "")) = true
    · rw [if_pos hg]
    · rw [if_neg hg]
      by_cases hc : c ∈ df.columns
      · simp only [if_pos hc, hs, he, hf]
        rfl
      · simp only [if_neg hc]

/-- Witness for the amended C7: both inapplicable cases at concrete inputs —
a missing column, and a zero-row mask — each return the original frame. -/
theorem date_filter_single_inapplicable_passthrough_witness :
    apply_date_filter ⟨["a"], [[("a", some "20300101")]]⟩
        ⟨.single "zzz", "20240101", "20241231"⟩
      = .ok ⟨["a"], [[("a", some "20300101")]]⟩
    ∧ apply_date_filter ⟨["a"], [[("a", some "20300101")]]⟩
        ⟨.single "a", "20240101", "20241231"⟩
      = .ok ⟨["a"], [[("a", some "20300101")]]⟩ :=
  ⟨(date_filter_single_inapplicable_passthrough ⟨["a"], [[("a", some "20300101")]]⟩
      "zzz" "20240101" "20241231").1 (by decide),
   (date_filter_single_inapplicable_passthrough ⟨["a"], [[("a", some "20300101")]]⟩
      "a" "20240101" "20241231").2 20240101 20241231 rfl rfl (by decide)⟩

/-- C9: evaluating `_apply_date_filter` at a filter whose `column` field is a
list of column names that are all present in the record set: instead of the
claimed OR-mask filtering, the code raises `TypeError` at
`date_filter.column not in df.columns` (a list key is unhashable for the
pandas column index), so the `isinstance(..., list)` OR-mask branch is
unreachable. -/
theorem date_filter_multi_column_raises :
    apply_date_filter ⟨["a", "b"], [[("a", some "20240615"), ("b", some "20240101")]]⟩
        ⟨.multi ["a", "b"], "20240101", "20241231"⟩ = .error ()
    ∧ "a" ∈ (DFrame.mk ["a", "b"] [[("a", some "20240615"), ("b", some "20240101")]]).columns
    ∧ "b" ∈ (DFrame.mk ["a", "b"] [[("a", some "20240615"), ("b", some "20240101")]]).columns :=
  ⟨rfl, by decide, by decide⟩

/-- C1: evaluating the row-by-row delta application at an empty keyed target
and a one-row record set: the application fails (`to_dict('records')` strips
the business keys off the queued insert batch, so the insert violates the
primary key; with an empty batch, `set_index` on the empty frame raises
`KeyError` first) and commits nothing, so no successful application — and in
particular no idempotent re-application — exists for the row-by-row strategy,
while the bulk `MERGE` strategy commits the expected single row from the same
input. -/
theorem update_strategy_cannot_apply_delta :
    update_table_from_dataframe ([] : List (MRow Nat Nat)) [(0, 7)] (fun _ => false)
      = (.error (), [])
    ∧ insert_data ([] : List (MRow Nat Nat)) [{ key := none, data := 7 }] = .error ()
    ∧ mergeCommitted ([] : List (MRow Nat Nat)) [(0, 7)] = [{ key := some 0, data := 7 }] :=
  ⟨rfl, rfl, rfl⟩

/-- C3: any error during the row-by-row keyed reconciliation leaves the
committed target table exactly as it was before the call — the session
transaction holding the updates is rolled back, the insert batch runs in its
own all-or-nothing transaction (and, carrying no keys, can never commit), and
the error is propagated to the caller (`.error` is returned; there is no
retry in the function). -/
theorem update_rollback_on_error {κ δ : Type} [DecidableEq κ] (t : List (MRow κ δ))
    (src : List (κ × δ)) (env : Nat → Bool)
    (_h : (update_table_from_dataframe t src env).1 = .error ()) :
    (update_table_from_dataframe t src env).2 = t := by
  rw [update_table_always_error]

/-- Witness for C3 at a concrete table, record set and failure pattern. -/
theorem update_rollback_on_error_witness :
    (update_table_from_dataframe [(⟨some 0, 5⟩ : MRow Nat Nat)] [(0, 7)]
        (fun _ => false)).2
      = [(⟨some 0, 5⟩ : MRow Nat Nat)] :=
  update_rollback_on_error _ _ _ rfl

/-- C4: the two keyed strategies are not functionally equivalent: from the
same initial state (empty keyed target) and the same one-row record set, the
bulk `MERGE` strategy commits the reconciled table while the row-by-row
strategy raises and commits nothing, leaving different final states. -/
theorem merge_and_update_strategies_diverge :
    mergeCommitted ([] : List (MRow Nat Nat)) [(1, 2)] = [{ key := some 1, data := 2 }]
    ∧ (update_table_from_dataframe ([] : List (MRow Nat Nat)) [(1, 2)] (fun _ => false)).2 = []
    ∧ (update_table_from_dataframe ([] : List (MRow Nat Nat)) [(1, 2)]
        (fun _ => false)).1 = .error ()
    ∧ ([{ key := some 1, data := 2 }] : List (MRow Nat Nat)) ≠ ([] : List (MRow Nat Nat)) :=
  ⟨rfl, rfl, rfl, by decide⟩

end OdeIngest
